import Mathlib

/-!
# Verification of the `building_agents_from_scratch` demo agents

Shallow embedding of the two demo programs:

* `src/building_agents_from_scratch/tool_use/src/main.py` (+ `tools.py`):
  an agent with a tool registry, an LLM planning step and an executor that
  dispatches the planned tool calls (namespace `ToolUse`);
* `src/building_agents_from_scratch/planning/reflection/src/main.py`:
  an agent that plans, reflects on the plan, and optionally replans once
  (namespace `Reflection`).

Modelling conventions:

* Python objects that flow through the pipeline (values decoded from JSON by
  `json.loads`) are modelled by the inductive type `Json`.
* Python numbers (int / float) are modelled as exact rationals `PyNum`
  (a numerator and a positive denominator, not necessarily reduced).  JSON
  integer literals carry denominator 1.  Binary floating point rounding of
  CPython is modelled as exact rational arithmetic; no claim distinguishes
  the two on the inputs it exercises.
* Python exceptions are modelled by `PyExn`; code that can raise is embedded
  as `Except PyExn _` and `try/except` blocks as a `match` on that value.
* The chat-completions endpoint is an external collaborator: one model
  request yields a `Reply`, which packages the raw message text together
  with the outcome of the Python `json.loads` call on it (`none` models a raised
  `json.JSONDecodeError`).  Quantifying over all `Reply` values quantifies
  over all model behaviours.
* The currency-rate HTTP endpoint is an external collaborator modelled by a
  function `String → FetchOutcome` from the requested URL to either a raised
  exception or the `json.loads`-decoded response body.
-/

/-- Models a Python number (int or float) as an exact, not necessarily
reduced fraction: numerator `num` over positive denominator `den`.
JSON integers decode with `den = 1`. -/
structure PyNum where
  num : Int
  den : Nat
deriving DecidableEq

/-- Integer-valued test: `den` divides `num` (Python ints, and floats whose
value happens to be integral). -/
def PyNum.isInt (q : PyNum) : Bool :=
  q.num.emod (q.den : Int) == 0

/-- Python `*` on numbers: exact fraction multiplication (no reduction). -/
def PyNum.mul (a b : PyNum) : PyNum :=
  PyNum.mk (a.num * b.num) (a.den * b.den)

/-- Python truthiness of a number: zero is falsy. -/
def PyNum.truthy (q : PyNum) : Bool :=
  q.num != 0

/-- Rendering of a number inside an f-string (`str(x)`).  An integral value
prints as a Python int (no decimal point), matching the JSON-decoded integer
arguments the demos use; non-integral values are abbreviated as
`num/den` (no claim depends on the decimal rendering of a non-integral
float). -/
def pyNumRepr (q : PyNum) : String :=
  if q.isInt then toString (q.num.fdiv (q.den : Int))
  else toString q.num ++ "/" ++ toString q.den

/-- Nearest integer to `num/den` (`den > 0`), ties to even - the rounding
the CPython two-decimal fixed-point formatting applies to the scaled value. -/
def roundHalfEven (num : Int) (den : Nat) : Int :=
  let fl := num.fdiv (den : Int)
  let r := num - fl * (den : Int)
  if 2 * r > (den : Int) then fl + 1
  else if 2 * r < (den : Int) then fl
  else if fl % 2 == 0 then fl else fl + 1

/-- The Python two-decimal fixed-point rendering of a number. -/
def format2 (q : PyNum) : String :=
  let n := roundHalfEven (q.num * 100) q.den
  let sign := if n < 0 then "-" else ""
  let m := n.natAbs
  let frac := m % 100
  sign ++ toString (m / 100) ++ "." ++
    (if frac < 10 then "0" ++ toString frac else toString frac)

/-- Models a Python value decoded from JSON by `json.loads`: `None`, a bool,
a number, a string, a list, or a dict (an insertion-ordered association
list, unique keys when produced by `json.loads`). -/
inductive Json where
  | null
  | bool (b : Bool)
  | num (q : PyNum)
  | str (s : String)
  | arr (elems : List Json)
  | obj (fields : List (String × Json))

/-- Models a raised Python exception, as far as the demos distinguish them. -/
inductive PyExn where
  | valueError (msg : String)
  | keyError (key : String)
  | typeError (msg : String)
  | attributeError (msg : String)
  | externalError (msg : String)
deriving DecidableEq

/-- Python `str(e)` on an exception: the message, except that `KeyError`
renders the repr of the missing key. -/
def PyExn.str : PyExn → String
  | PyExn.valueError m => m
  | PyExn.keyError k => "\x27" ++ k ++ "\x27"
  | PyExn.typeError m => m
  | PyExn.attributeError m => m
  | PyExn.externalError m => m

/-- Does `hay` start with `needle`? (on character lists). -/
def leadsWith : List Char → List Char → Bool
  | [], _ => true
  | _ :: _, [] => false
  | a :: as, b :: bs => a == b && leadsWith as bs

/-- Does `hay` contain `needle` as a contiguous subsequence? -/
def containsSeq (needle : List Char) : List Char → Bool
  | [] => needle.isEmpty
  | c :: t => leadsWith needle (c :: t) || containsSeq needle t

/-- Leading-segment test: does `s` start with `p`? (the Python startswith method). -/
def strLeadsWith (s p : String) : Bool :=
  leadsWith p.data s.data

/-- String containment test (Python `needle in hay`). -/
def strContainsB (hay needle : String) : Bool :=
  containsSeq needle.data hay.data

/-- ASCII upper-casing of one character.  The Python `upper` method is full
Unicode; the demos only upper-case currency codes, for which ASCII agrees. -/
def charUpper (c : Char) : Char :=
  if 97 ≤ c.toNat ∧ c.toNat ≤ 122 then Char.ofNat (c.toNat - 32) else c

/-- Python `s.upper()` (ASCII fragment, see `charUpper`). -/
def strUpper (s : String) : String :=
  String.mk (s.data.map charUpper)

namespace Json

/-- Python truthiness (`bool(x)`): `None`, `False`, zero, and empty
containers are falsy. -/
def truthy : Json → Bool
  | null => false
  | bool b => b
  | num q => q.truthy
  | str s => s != ""
  | arr xs => !xs.isEmpty
  | obj fs => !fs.isEmpty

/-- Python `==` between an arbitrary value and a `str` key (used for dict
membership and lookup against string keys): only equal strings compare
equal. -/
def eqStr : Json → String → Bool
  | str s, k => s == k
  | _, _ => false

/-- Python `repr` of a decoded-JSON value (used by `str()` on containers).
Recursion goes through the nested lists via `attach`. -/
def pyRepr : Json → String
  | null => "None"
  | bool true => "True"
  | bool false => "False"
  | num q => pyNumRepr q
  | str s => "\x27" ++ s ++ "\x27"
  | arr xs =>
      "[" ++ String.intercalate ", " (xs.attach.map (fun x => pyRepr x.1)) ++ "]"
  | obj fs =>
      "\x7b" ++ String.intercalate ", "
        (fs.attach.map (fun x => "\x27" ++ x.1.1 ++ "\x27: " ++ pyRepr x.1.2)) ++ "\x7d"
decreasing_by
  · have h := List.sizeOf_lt_of_mem x.2
    simp_wf
    omega
  · have h := List.sizeOf_lt_of_mem x.2
    simp_wf
    obtain ⟨⟨k, v⟩, hm⟩ := x
    simp at h ⊢
    omega

/-- Python `str(x)`, as an f-string interpolates a value: strings verbatim,
`None` / `True` / `False`, numbers via `pyNumRepr`, containers via their
repr. -/
def pyStr : Json → String
  | null => "None"
  | bool true => "True"
  | bool false => "False"
  | num q => pyNumRepr q
  | str s => s
  | arr xs => pyRepr (arr xs)
  | obj fs => pyRepr (obj fs)

/-- Python `d.get(k, default)`: only dicts have `.get`; any other receiver
raises `AttributeError`. -/
def pyGet (j : Json) (k : String) (default : Json) : Except PyExn Json :=
  match j with
  | obj fs => Except.ok ((List.lookup k fs).getD default)
  | _ => Except.error (PyExn.attributeError "object has no attribute get")

/-- Python `d.get(k)` (single argument, default `None`). -/
def pyGet1 (j : Json) (k : String) : Except PyExn Json :=
  match j with
  | obj fs => Except.ok ((List.lookup k fs).getD Json.null)
  | _ => Except.error (PyExn.attributeError "object has no attribute get")

/-- Python `d[k]` with a string key: `KeyError` on a dict without the key,
`TypeError` on any non-dict receiver. -/
def pySubscript (j : Json) (k : String) : Except PyExn Json :=
  match j with
  | obj fs =>
      match List.lookup k fs with
      | some v => Except.ok v
      | none => Except.error (PyExn.keyError k)
  | str _ => Except.error (PyExn.typeError "string indices must be integers")
  | _ => Except.error (PyExn.typeError "object is not subscriptable")

/-- Python iteration (`for x in j`): lists yield elements, dicts yield their
keys, strings yield one-character strings; other values raise `TypeError`. -/
def pyIter : Json → Except PyExn (List Json)
  | arr xs => Except.ok xs
  | obj fs => Except.ok (fs.map (fun p => Json.str p.1))
  | str s => Except.ok (s.data.map (fun c => Json.str (String.singleton c)))
  | _ => Except.error (PyExn.typeError "object is not iterable")

/-- Python `k in j` for a string `k`: key membership for dicts, element
membership for lists, substring test for strings; `TypeError` otherwise. -/
def pyContains (j : Json) (k : String) : Except PyExn Bool :=
  match j with
  | obj fs => Except.ok (fs.any (fun p => p.1 == k))
  | arr xs => Except.ok (xs.any (fun x => x.eqStr k))
  | str s => Except.ok (strContainsB s k)
  | _ => Except.error (PyExn.typeError "argument is not a container")

/-- Python `f(**j)`: the double-star argument must be a mapping, otherwise
`TypeError`. -/
def asKwargs : Json → Except PyExn (List (String × Json))
  | obj fs => Except.ok fs
  | _ => Except.error (PyExn.typeError "argument after double-star must be a mapping")

end Json

/-- `str.join` helper: every item of the iterated sequence must itself be a
`str`, otherwise `TypeError` (as the Python `join` method raises). -/
def allStrs : List Json → Except PyExn (List String)
  | [] => Except.ok []
  | Json.str s :: rest =>
      match allStrs rest with
      | Except.ok ss => Except.ok (s :: ss)
      | Except.error e => Except.error e
  | _ :: _ => Except.error (PyExn.typeError "sequence item: expected str instance")

/-- Python `sep.join(j)`: iterate `j`, require string items, intercalate. -/
def pyJoin (sep : String) (j : Json) : Except PyExn String :=
  match j.pyIter with
  | Except.error e => Except.error e
  | Except.ok items =>
      match allStrs items with
      | Except.error e => Except.error e
      | Except.ok ss => Except.ok (String.intercalate sep ss)

/-- One reply of the chat-completions model: the raw message text together
with the outcome of Python `json.loads` on it (`none` models a raised
`json.JSONDecodeError`). -/
structure Reply where
  content : String
  parsed : Option Json

namespace ToolUse

/-- Modelled from the spec: `tool_registry.Tool` (the `tool_registry` module
is not under `src/`; only its importers are).  A tool is a unique name, a
human-readable description, a parameter schema (parameter name, declared
type, description), and an invocable implementation.  The implementation
receives the forwarded keyword arguments and either returns its string
result or raises. -/
structure Tool where
  name : String
  description : String
  parameters : List (String × String × String)
  func : List (String × Json) → Except PyExn String

/-- The tool registry `self.tools` of the agent: a name-keyed, insertion-ordered
dict of tools (unique keys, maintained by `add_tool`). -/
abbrev Registry := List (String × Tool)

/-- Python dict lookup of `tool_name` (an arbitrary object compared with
`==` against the string keys) in the registry. -/
def findTool (tools : Registry) (tool_name : Json) : Option Tool :=
  (tools.find? (fun p => tool_name.eqStr p.1)).map (fun p => p.2)

/-- The message of the `ValueError` raised by `Agent.use_tool` for an
unregistered name (main.py line 25). -/
def toolNotFoundMsg (tool_name : Json) (tools : Registry) : String :=
  "Tool \x27" ++ tool_name.pyStr ++ "\x27 not found. Available tools: [" ++
    String.intercalate ", " (tools.map (fun p => "\x27" ++ p.1 ++ "\x27")) ++ "]"

/-- Embeds `Agent.use_tool` (tool_use main.py lines 22-28): raise
`ValueError` when the name is not a registry key, otherwise forward the
keyword arguments to the implementation of the tool and return its result. -/
def Agent.use_tool (tools : Registry) (tool_name : Json)
    (kwargs : List (String × Json)) : Except PyExn String :=
  match findTool tools tool_name with
  | none => Except.error (PyExn.valueError (toolNotFoundMsg tool_name tools))
  | some tool => tool.func kwargs

/-- Embeds `Agent.plan` (tool_use main.py lines 162-178): one model request,
whose reply is parsed by `json.loads`; a parse failure raises
`ValueError("Failed to parse LLM response as JSON")`. -/
def Agent.plan (reply : Reply) : Except PyExn Json :=
  match reply.parsed with
  | some p => Except.ok p
  | none => Except.error (PyExn.valueError "Failed to parse LLM response as JSON")

/-- One dispatch through the registry, as recorded in the execution trace:
the tool name and the forwarded keyword arguments. -/
structure ToolEvent where
  tool_name : Json
  kwargs : List (String × Json)

/-- Embeds the loop of `Agent.execute` (tool_use main.py lines 189-194):
for each entry of `plan["tool_calls"]`, in order, extract `tool_call["tool"]`
and `tool_call["args"]` and dispatch through `Agent.use_tool`, collecting
the string results.  The second component is the trace of dispatches made
before the loop finished or an exception propagated. -/
def run_tool_calls (tools : Registry) :
    List Json → Except PyExn (List String) × List ToolEvent
  | [] => (Except.ok [], [])
  | tc :: rest =>
    match tc.pySubscript "tool" with
    | Except.error e => (Except.error e, [])
    | Except.ok tool_name =>
      match tc.pySubscript "args" with
      | Except.error e => (Except.error e, [])
      | Except.ok argsJ =>
        match argsJ.asKwargs with
        | Except.error e => (Except.error e, [])
        | Except.ok tool_args =>
          match Agent.use_tool tools tool_name tool_args with
          | Except.error e => (Except.error e, [ToolEvent.mk tool_name tool_args])
          | Except.ok result =>
            match run_tool_calls tools rest with
            | (Except.ok results, evs) =>
                (Except.ok (result :: results), ToolEvent.mk tool_name tool_args :: evs)
            | (Except.error e, evs) =>
                (Except.error e, ToolEvent.mk tool_name tool_args :: evs)

/-- Embeds the tool branch of `Agent.execute` (tool_use main.py lines
188-199): run the planned tool calls, then render the final f-string
`Thought: ... / Plan: ... / Results: ...` (the step list joined with
". ", the results joined with ". "). -/
def execute_tools_branch (tools : Registry) (plan : Json) :
    Except PyExn Json × List ToolEvent :=
  match plan.pySubscript "tool_calls" with
  | Except.error e => (Except.error e, [])
  | Except.ok tcs =>
    match tcs.pyIter with
    | Except.error e => (Except.error e, [])
    | Except.ok tcList =>
      match run_tool_calls tools tcList with
      | (Except.error e, evs) => (Except.error e, evs)
      | (Except.ok results, evs) =>
        (match plan.pySubscript "thought" with
         | Except.error e => Except.error e
         | Except.ok th =>
           match plan.pySubscript "plan" with
           | Except.error e => Except.error e
           | Except.ok steps =>
             match pyJoin ". " steps with
             | Except.error e => Except.error e
             | Except.ok stepsStr =>
                 Except.ok (Json.str ("Thought: " ++ th.pyStr ++
                   "\nPlan: " ++ stepsStr ++
                   "\nResults: " ++ String.intercalate ". " results)),
         evs)

/-- Embeds the body of the `try` in `Agent.execute` (tool_use main.py lines
182-199): plan, read `requires_tools` with default `True`, then either
return `plan["direct_response"]` (the raw decoded value) or run the tool
branch. -/
def Agent.execute_body (tools : Registry) (reply : Reply) :
    Except PyExn Json × List ToolEvent :=
  match Agent.plan reply with
  | Except.error e => (Except.error e, [])
  | Except.ok plan =>
    match plan.pyGet "requires_tools" (Json.bool true) with
    | Except.error e => (Except.error e, [])
    | Except.ok rt =>
      if !rt.truthy then (plan.pySubscript "direct_response", [])
      else execute_tools_branch tools plan

/-- Embeds `Agent.execute` (tool_use main.py lines 180-202): the whole
pipeline under a catch-all `except` that turns any raised exception into
the string `"Error executing plan: " ++ str(e)`. -/
def Agent.execute (tools : Registry) (reply : Reply) : Json × List ToolEvent :=
  match Agent.execute_body tools reply with
  | (Except.ok v, evs) => (v, evs)
  | (Except.error e, evs) => (Json.str ("Error executing plan: " ++ e.str), evs)

/-- The outcome of the currency-rate HTTP request followed by `json.loads`
on its body (tools.py lines 16-17): either some exception was raised
(network failure, read failure, or invalid JSON - `exn` carries `str(e)`),
or a decoded JSON value was obtained. -/
inductive FetchOutcome where
  | exn (msg : String)
  | json (data : Json)

/-- The URL requested by `convert_currency` (tools.py line 15); the embedded
`from_currency.upper()` is applied by the caller. -/
def rateUrl (fromUpper : String) : String :=
  "https://open.er-api.com/v6/latest/" ++ fromUpper

/-- Embeds the body of the `try` in `convert_currency` (tools.py lines
14-27), over the raw argument objects the keyword call can deliver:
upper-case the source currency (AttributeError unless a string), fetch and
decode the rate table, test `"rates" not in data`, look up
`data["rates"].get(to_currency.upper())`, test `if not rate`, multiply, and
format the result.  A non-numeric truthy rate raises at the arithmetic
(in CPython the failure can also surface at the `.2f` format - either way
an exception inside the `try`; the message is not observable by any
claim). -/
def convert_currency_body (amount from_currency to_currency : Json)
    (endpoint : String → FetchOutcome) : Except PyExn String :=
  match from_currency with
  | Json.str fc =>
    let fcU := strUpper fc
    match endpoint (rateUrl fcU) with
    | FetchOutcome.exn msg => Except.error (PyExn.externalError msg)
    | FetchOutcome.json data =>
      match data.pyContains "rates" with
      | Except.error e => Except.error e
      | Except.ok hasRates =>
        if !hasRates then Except.ok "Error: Could not fetch exchange rates"
        else
          match data.pySubscript "rates" with
          | Except.error e => Except.error e
          | Except.ok rates =>
            match to_currency with
            | Json.str tc =>
              let tcU := strUpper tc
              match rates.pyGet1 tcU with
              | Except.error e => Except.error e
              | Except.ok rate =>
                if !rate.truthy then
                  Except.ok ("Error: No rate found for " ++ tc)
                else
                  match amount, rate with
                  | Json.num a, Json.num r =>
                      Except.ok (amount.pyStr ++ " " ++ fcU ++ " = " ++
                        format2 (a.mul r) ++ " " ++ tcU)
                  | _, _ =>
                      Except.error (PyExn.typeError
                        "unsupported operand type for multiplication")
            | _ => Except.error (PyExn.attributeError "object has no attribute upper")
  | _ => Except.error (PyExn.attributeError "object has no attribute upper")

/-- Embeds `convert_currency` (tools.py lines 5-30): the `try` body with its
catch-all `except` returning `"Error converting currency: " ++ str(e)`. -/
def convert_currency (amount from_currency to_currency : Json)
    (endpoint : String → FetchOutcome) : String :=
  match convert_currency_body amount from_currency to_currency endpoint with
  | Except.ok s => s
  | Except.error e => "Error converting currency: " ++ e.str

/-- Modelled from the spec: the `tool()` decorator of the missing
`tool_registry` module wraps `convert_currency` as a `Tool` whose
implementation binds the forwarded keyword arguments to the three declared
parameters (a Python call raises `TypeError` on a missing or unexpected
keyword).  The registry never validates arguments (spec section 4.1). -/
def convert_currency_tool (endpoint : String → FetchOutcome) : Tool where
  name := "convert_currency"
  description := "Converts currency using latest exchange rates."
  parameters :=
    [("amount", "float", "Amount to convert"),
     ("from_currency", "str", "Source currency code (e.g., USD)"),
     ("to_currency", "str", "Target currency code (e.g., EUR)")]
  func := fun kwargs =>
    match List.lookup "amount" kwargs, List.lookup "from_currency" kwargs,
        List.lookup "to_currency" kwargs with
    | some a, some f, some t =>
        if kwargs.length == 3 then
          Except.ok (convert_currency a f t endpoint)
        else
          Except.error (PyExn.typeError
            "convert_currency got an unexpected keyword argument")
    | _, _, _ =>
        Except.error (PyExn.typeError
          "convert_currency missing a required positional argument")

end ToolUse

namespace Reflection

/-- Embeds the `Interaction` dataclass (reflection main.py lines 8-13): the
record of one query cycle in working memory.  The timestamp is an abstract
clock value supplied by the caller. -/
structure Interaction where
  timestamp : Nat
  query : String
  plan : Json

/-- One externally visible action of the reflection agent, as recorded in
the execution trace: the three kinds of chat-completions request the code
can issue (each constructor carries the data its message list is built
from), plus a tool invocation - a constructor the code of this agent never
produces. -/
inductive Event where
  | planRequest (query : String)
  | reflectionRequest (latest : Interaction)
  | revisionRequest (query : String) (initial_plan reflection : Json)
  | toolInvocation (tool_name : Json) (kwargs : List (String × Json))

/-- Is this trace event the replanning (revision) model request? -/
def Event.isRevision : Event → Bool
  | Event.revisionRequest _ _ _ => true
  | _ => false

/-- Is this trace event the reflection model request? -/
def Event.isReflection : Event → Bool
  | Event.reflectionRequest _ => true
  | _ => false

/-- Is this trace event a tool invocation? -/
def Event.isToolInvocation : Event → Bool
  | Event.toolInvocation _ _ => true
  | _ => false

/-- Embeds `Agent.plan` (reflection main.py lines 162-186): one model
request; on a decodable reply the plan is returned and the interaction is
appended to working memory, otherwise `ValueError` is raised (and the
memory is left unchanged). -/
def Agent.plan (planReply : Reply) (now : Nat) (user_query : String)
    (interactions : List Interaction) :
    Except PyExn (Json × List Interaction) :=
  match planReply.parsed with
  | some p =>
      Except.ok (p, interactions ++ [Interaction.mk now user_query p])
  | none => Except.error (PyExn.valueError "Failed to parse LLM response as JSON")

/-- Embeds `Agent.reflect_on_plan` (reflection main.py lines 188-243).  With
an empty working memory it returns the neutral reflection dict without
issuing any model request.  Otherwise it issues one reflection request about
the most recent interaction; a decodable reply is returned as is, an
undecodable one degrades to a dict whose only key is `"reflection"`,
holding the raw reply text.  The second component is the list of model
requests issued. -/
def Agent.reflect_on_plan (reflectReply : Reply)
    (interactions : List Interaction) : Json × List Event :=
  match interactions.getLast? with
  | none =>
      (Json.obj [("reflection", Json.str "No plan to reflect on"),
                 ("requires_changes", Json.bool false)], [])
  | some latest =>
      match reflectReply.parsed with
      | some r => (r, [Event.reflectionRequest latest])
      | none =>
          (Json.obj [("reflection", Json.str reflectReply.content)],
           [Event.reflectionRequest latest])

/-- Embeds `self.interactions[-1].plan = ...` (reflection main.py lines
278-282): overwrite the plan field of the most recent interaction.  In the
source this line is only reached after `plan` appended an interaction, so
the list is never empty there. -/
def updateLastPlan (interactions : List Interaction) (p : Json) :
    List Interaction :=
  match interactions.getLast? with
  | none => interactions
  | some last =>
      interactions.dropLast ++ [Interaction.mk last.timestamp last.query p]

/-- Embeds the tool-requiring rendering of `Agent.execute` (reflection
main.py lines 286-289): the f-string
`Initial Thought / Initial Plan / Reflection / Final Plan`, with the step
lists joined by ". " and the reflection text read with default
`"No improvements suggested"`. -/
def render_tool_summary (initial_plan reflection final_plan : Json) :
    Except PyExn String :=
  match initial_plan.pySubscript "thought" with
  | Except.error e => Except.error e
  | Except.ok th =>
    match initial_plan.pySubscript "plan" with
    | Except.error e => Except.error e
    | Except.ok ipSteps =>
      match pyJoin ". " ipSteps with
      | Except.error e => Except.error e
      | Except.ok ipStepsStr =>
        match reflection.pyGet "reflection" (Json.str "No improvements suggested") with
        | Except.error e => Except.error e
        | Except.ok refl =>
          match final_plan.pySubscript "plan" with
          | Except.error e => Except.error e
          | Except.ok fpSteps =>
            match pyJoin ". " fpSteps with
            | Except.error e => Except.error e
            | Except.ok fpStepsStr =>
                Except.ok ("Initial Thought: " ++ th.pyStr ++
                  "\nInitial Plan: " ++ ipStepsStr ++
                  "\nReflection: " ++ refl.pyStr ++
                  "\nFinal Plan: " ++ fpStepsStr)

/-- Embeds the direct-response rendering of `Agent.execute` (reflection
main.py lines 291-292): the f-string `Response / Reflection`. -/
def render_direct_summary (reflection final_plan : Json) :
    Except PyExn String :=
  match final_plan.pySubscript "direct_response" with
  | Except.error e => Except.error e
  | Except.ok dr =>
    match reflection.pyGet "reflection" (Json.str "No improvements suggested") with
    | Except.error e => Except.error e
    | Except.ok refl =>
        Except.ok ("Response: " ++ dr.pyStr ++ "\nReflection: " ++ refl.pyStr)

/-- Embeds the rendering dispatch of `Agent.execute` (reflection main.py
lines 285-292): `final_plan.get("requires_tools", True)` selects between
the tool-requiring summary and the direct-response summary. -/
def Agent.render (initial_plan reflection final_plan : Json) :
    Except PyExn String :=
  match final_plan.pyGet "requires_tools" (Json.bool true) with
  | Except.error e => Except.error e
  | Except.ok rt =>
      if rt.truthy then render_tool_summary initial_plan reflection final_plan
      else render_direct_summary reflection final_plan

/-- Embeds `Agent.execute` (reflection main.py lines 245-295): plan,
reflect, optionally issue exactly one revision request when the reflection
field `requires_changes` (default `False`) is truthy - falling back to the
initial plan when the revision reply does not decode - then overwrite the
stored interaction and render, all under a catch-all `except` producing
`"Error executing plan: " ++ str(e)`.  Returns the result string, the
working memory after the call, and the trace of issued requests.  The
three `Reply` arguments are the replies of the model to the (up to three)
requests this call can issue, in order. -/
def Agent.execute (now : Nat) (planReply reflectReply reviseReply : Reply)
    (user_query : String) (interactions : List Interaction) :
    String × List Interaction × List Event :=
  match Agent.plan planReply now user_query interactions with
  | Except.error e =>
      ("Error executing plan: " ++ e.str, interactions,
       [Event.planRequest user_query])
  | Except.ok (initial_plan, ints1) =>
    let refOut := Agent.reflect_on_plan reflectReply ints1
    let reflection := refOut.1
    let events0 := Event.planRequest user_query :: refOut.2
    match reflection.pyGet "requires_changes" (Json.bool false) with
    | Except.error e => ("Error executing plan: " ++ e.str, ints1, events0)
    | Except.ok rc =>
      let fp : Json × List Event :=
        if rc.truthy then
          (match reviseReply.parsed with
           | some p => p
           | none => initial_plan,
           events0 ++ [Event.revisionRequest user_query initial_plan reflection])
        else (initial_plan, events0)
      let final_plan := fp.1
      let events1 := fp.2
      let stored := Json.obj [("initial_plan", initial_plan),
        ("reflection", reflection), ("final_plan", final_plan)]
      let ints2 := updateLastPlan ints1 stored
      match Agent.render initial_plan reflection final_plan with
      | Except.ok s => (s, ints2, events1)
      | Except.error e => ("Error executing plan: " ++ e.str, ints2, events1)

end Reflection

/-! ## Generic lemmas about the string and list helpers -/

theorem leadsWith_append (a b : List Char) : leadsWith a (a ++ b) = true := by
  induction a with
  | nil => rfl
  | cons c cs ih => simp [leadsWith, ih]

theorem containsSeq_append (pre n post : List Char) :
    containsSeq n (pre ++ (n ++ post)) = true := by
  induction pre with
  | nil =>
      cases n with
      | nil => cases post <;> simp [containsSeq, leadsWith]
      | cons c cs =>
          simp only [containsSeq, List.nil_append, Bool.or_eq_true]
          exact Or.inl (leadsWith_append (c :: cs) post)
  | cons c cs ih => simp [containsSeq, ih]

theorem strLeadsWith_data (hay p : String) (post : List Char)
    (h : hay.data = p.data ++ post) : strLeadsWith hay p = true := by
  simp [strLeadsWith, h, leadsWith_append]

theorem strContainsB_data (hay n : String) (pre post : List Char)
    (h : hay.data = pre ++ (n.data ++ post)) : strContainsB hay n = true := by
  have := containsSeq_append pre n.data post
  simp [strContainsB, h, this]

theorem allStrs_map_str (steps : List String) :
    allStrs (steps.map Json.str) = Except.ok steps := by
  induction steps with
  | nil => rfl
  | cons s rest ih => simp [allStrs, ih]

theorem pyJoin_map_str (sep : String) (steps : List String) :
    pyJoin sep (Json.arr (steps.map Json.str)) =
      Except.ok (String.intercalate sep steps) := by
  simp [pyJoin, Json.pyIter, allStrs_map_str]

namespace ToolUse

/-- A well-formed tool-call entry of a plan, as the JSON schema for the model
prescribes: a dict with a `"tool"` name and an `"args"` mapping. -/
def toolCallJson (cl : String × List (String × Json)) : Json :=
  Json.obj [("tool", Json.str cl.1), ("args", Json.obj cl.2)]

/-- A well-formed tool-requiring plan, as the JSON schema for the model
prescribes: `requires_tools` true, a thought, a step list and a tool-call
sequence. -/
def toolPlanJson (th : Json) (steps : List String)
    (calls : List (String × List (String × Json))) : Json :=
  Json.obj [("requires_tools", Json.bool true), ("thought", th),
            ("plan", Json.arr (steps.map Json.str)),
            ("tool_calls", Json.arr (calls.map toolCallJson))]

theorem run_tool_calls_map (tools : Registry)
    (calls : List (String × List (String × Json))) (results : List String)
    (h : List.Forall₂
      (fun cl r => Agent.use_tool tools (Json.str cl.1) cl.2 = Except.ok r)
      calls results) :
    run_tool_calls tools (calls.map toolCallJson) =
      (Except.ok results, calls.map (fun cl => ToolEvent.mk (Json.str cl.1) cl.2)) := by
  induction h with
  | nil => rfl
  | cons h1 h2 ih =>
      rename_i cl r calls2 results2
      have e1 : (toolCallJson cl).pySubscript "tool" = Except.ok (Json.str cl.1) := rfl
      have e2 : (toolCallJson cl).pySubscript "args" = Except.ok (Json.obj cl.2) := rfl
      have e3 : (Json.obj cl.2).asKwargs = Except.ok cl.2 := rfl
      simp only [List.map_cons, run_tool_calls, e1, e2, e3, h1, ih]

/-- The stubbed rate-table endpoint of end-to-end scenario 1: every request
is answered with the decoded body containing the single rate EUR = 0.9. -/
def demoEndpoint : String → FetchOutcome := fun _ =>
  FetchOutcome.json (Json.obj [("rates", Json.obj [("EUR", Json.num (PyNum.mk 9 10))])])

/-- A registry holding only the currency-conversion tool over the stubbed
endpoint. -/
def demoTools : Registry := [("convert_currency", convert_currency_tool demoEndpoint)]

/-- The argument mapping of the single tool call in the first end-to-end test case. -/
def demoArgs : List (String × Json) :=
  [("amount", Json.num (PyNum.mk 100 1)),
   ("from_currency", Json.str "USD"),
   ("to_currency", Json.str "EUR")]

/-- The stubbed model reply of end-to-end scenario 1, already decoded. -/
def demoReply : Reply :=
  Reply.mk "stub"
    (some (toolPlanJson (Json.str "I need to use the currency conversion tool")
      ["Use convert_currency tool to convert 100 USD to EUR",
       "Return the conversion result"]
      [("convert_currency", demoArgs)]))

end ToolUse

namespace Reflection

theorem execute_events_shape (now : Nat) (r1 r2 r3 : Reply) (q : String)
    (ints : List Interaction) :
    (Agent.execute now r1 r2 r3 q ints).2.2 = [Event.planRequest q] ∨
    (∃ l, (Agent.execute now r1 r2 r3 q ints).2.2 =
       [Event.planRequest q, Event.reflectionRequest l]) ∨
    (∃ l ip rf, (Agent.execute now r1 r2 r3 q ints).2.2 =
       [Event.planRequest q, Event.reflectionRequest l,
        Event.revisionRequest q ip rf]) := by
  unfold Agent.execute
  cases hp : r1.parsed with
  | none => simp [Agent.plan, hp]
  | some ip =>
    simp only [Agent.plan, hp]
    have hl : (ints ++ [Interaction.mk now q ip]).getLast? =
        some (Interaction.mk now q ip) := List.getLast?_concat _
    cases hp2 : r2.parsed with
    | none =>
        simp only [Agent.reflect_on_plan, hl, hp2]
        have hg : Json.pyGet (Json.obj [("reflection", Json.str r2.content)])
            "requires_changes" (Json.bool false) = Except.ok (Json.bool false) := rfl
        simp only [hg, Json.truthy]
        cases hr : Agent.render ip (Json.obj [("reflection", Json.str r2.content)])
            ip <;> simp [hr]
    | some refl =>
        simp only [Agent.reflect_on_plan, hl, hp2]
        cases hg : refl.pyGet "requires_changes" (Json.bool false) with
        | error e => simp [hg]
        | ok rc =>
            simp only [hg]
            cases hrc : rc.truthy with
            | false =>
                simp only [Bool.false_eq_true, if_false]
                cases hr : Agent.render ip refl ip <;> simp [hr]
            | true =>
                simp only [if_true]
                cases hp3 : r3.parsed with
                | none =>
                    simp only [hp3]
                    cases hr : Agent.render ip refl ip <;> simp [hr]
                | some fp =>
                    simp only [hp3]
                    cases hr : Agent.render ip refl fp <;> simp [hr]

end Reflection

/-- C5: for every query and every model behaviour, the reflection-variant
executor issues at most one replanning (revision) request, at most one
reflection request, and at most three model requests in total: after the
single revision round no further reflection or replanning occurs. -/
theorem reflection_at_most_one_revision (now : Nat)
    (planReply reflectReply reviseReply : Reply) (user_query : String)
    (interactions : List Reflection.Interaction) :
    ((Reflection.Agent.execute now planReply reflectReply reviseReply
        user_query interactions).2.2).countP Reflection.Event.isRevision ≤ 1 ∧
    ((Reflection.Agent.execute now planReply reflectReply reviseReply
        user_query interactions).2.2).countP Reflection.Event.isReflection ≤ 1 ∧
    ((Reflection.Agent.execute now planReply reflectReply reviseReply
        user_query interactions).2.2).length ≤ 3 := by
  rcases Reflection.execute_events_shape now planReply reflectReply reviseReply
      user_query interactions with h | ⟨l, h⟩ | ⟨l, ip, rf, h⟩ <;>
    simp [h, List.countP_cons, Reflection.Event.isRevision,
      Reflection.Event.isReflection]

/-- C7: for every query and every model behaviour, the reflection-variant
trace of the executor contains no tool invocation: it only issues model requests
(plan, reflect, revise), even when the requires-tools flag of the final plan is
true. -/
theorem reflection_never_invokes_tools (now : Nat)
    (planReply reflectReply reviseReply : Reply) (user_query : String)
    (interactions : List Reflection.Interaction) :
    ((Reflection.Agent.execute now planReply reflectReply reviseReply
        user_query interactions).2.2).filter Reflection.Event.isToolInvocation = [] := by
  rcases Reflection.execute_events_shape now planReply reflectReply reviseReply
      user_query interactions with h | ⟨l, h⟩ | ⟨l, ip, rf, h⟩ <;>
    simp [h, List.filter, Reflection.Event.isToolInvocation]

/-- C8: on an empty working memory, `reflect_on_plan` returns the neutral
reflection dict - explanation `"No plan to reflect on"` and
`requires_changes = False` - and issues no model request (the trace of
issued requests is empty), for every possible model reply. -/
theorem reflect_on_plan_empty_memory (reflectReply : Reply) :
    Reflection.Agent.reflect_on_plan reflectReply [] =
      (Json.obj [("reflection", Json.str "No plan to reflect on"),
                 ("requires_changes", Json.bool false)], []) := rfl

/-- C9: whenever the reflection model reply is not valid JSON,
`reflect_on_plan` returns (rather than raises) a reflection dict whose only
key is `"reflection"`, holding the raw reply text - so `requires_changes`
is absent from it - and the executor, reading that flag with a false
default, issues no revision (replanning) request. -/
theorem reflect_parse_failure_no_replanning (content : String)
    (ints : List Reflection.Interaction) (l : Reflection.Interaction)
    (h : ints.getLast? = some l)
    (now : Nat) (pc xc : String) (ip : Json) (xp : Option Json) (q : String)
    (ints0 : List Reflection.Interaction) :
    Reflection.Agent.reflect_on_plan (Reply.mk content none) ints =
      (Json.obj [("reflection", Json.str content)],
       [Reflection.Event.reflectionRequest l]) ∧
    List.lookup "requires_changes" [("reflection", Json.str content)] = none ∧
    ((Reflection.Agent.execute now (Reply.mk pc (some ip)) (Reply.mk content none)
        (Reply.mk xc xp) q ints0).2.2).countP Reflection.Event.isRevision = 0 := by
  refine ⟨?_, rfl, ?_⟩
  · simp [Reflection.Agent.reflect_on_plan, h]
  · unfold Reflection.Agent.execute
    simp only [Reflection.Agent.plan]
    have hl : (ints0 ++ [Reflection.Interaction.mk now q ip]).getLast? =
        some (Reflection.Interaction.mk now q ip) := List.getLast?_concat _
    simp only [Reflection.Agent.reflect_on_plan, hl]
    have hg : Json.pyGet (Json.obj [("reflection", Json.str content)])
        "requires_changes" (Json.bool false) = Except.ok (Json.bool false) := rfl
    simp only [hg, Json.truthy, Bool.false_eq_true, if_false]
    cases hr : Reflection.Agent.render ip
        (Json.obj [("reflection", Json.str content)]) ip <;>
      simp [hr, List.countP_cons, Reflection.Event.isRevision]

theorem reflect_parse_failure_no_replanning_witness :
    Reflection.Agent.reflect_on_plan (Reply.mk "not json" none)
        [Reflection.Interaction.mk 0 "q" Json.null] =
      (Json.obj [("reflection", Json.str "not json")],
       [Reflection.Event.reflectionRequest (Reflection.Interaction.mk 0 "q" Json.null)]) ∧
    List.lookup "requires_changes" [("reflection", Json.str "not json")] = none ∧
    ((Reflection.Agent.execute 0 (Reply.mk "p" (some Json.null)) (Reply.mk "not json" none)
        (Reply.mk "x" none) "q" []).2.2).countP Reflection.Event.isRevision = 0 :=
  reflect_parse_failure_no_replanning "not json"
    [Reflection.Interaction.mk 0 "q" Json.null]
    (Reflection.Interaction.mk 0 "q" Json.null) rfl 0 "p" "x" Json.null none "q" []

/-- C6: in the reflection variant, whenever the reflection requests changes
(truthy `requires_changes`) and the reply to the revision request is not valid
JSON, the final plan equals the initial plan unchanged - the interaction
stored in working memory records `final_plan = initial_plan` - and the
rendered output still contains the step text of the initial plan (its
steps joined with ". "). -/
theorem revision_parse_failure_falls_back (now : Nat) (pc rc2 xc q : String)
    (ints : List Reflection.Interaction)
    (ipf : List (String × Json)) (rtv th : Json) (steps : List String)
    (rflf : List (String × Json)) (rcv : Json)
    (h1 : List.lookup "requires_tools" ipf = some rtv) (h2 : rtv.truthy = true)
    (h3 : List.lookup "thought" ipf = some th)
    (h4 : List.lookup "plan" ipf = some (Json.arr (steps.map Json.str)))
    (h5 : List.lookup "requires_changes" rflf = some rcv) (h6 : rcv.truthy = true) :
    (((Reflection.Agent.execute now (Reply.mk pc (some (Json.obj ipf)))
        (Reply.mk rc2 (some (Json.obj rflf))) (Reply.mk xc none) q ints).2.1.getLast?).map
          Reflection.Interaction.plan =
       some (Json.obj [("initial_plan", Json.obj ipf),
                       ("reflection", Json.obj rflf),
                       ("final_plan", Json.obj ipf)])) ∧
    strContainsB (Reflection.Agent.execute now (Reply.mk pc (some (Json.obj ipf)))
        (Reply.mk rc2 (some (Json.obj rflf))) (Reply.mk xc none) q ints).1
      (String.intercalate ". " steps) = true := by
  have hrend : Reflection.Agent.render (Json.obj ipf) (Json.obj rflf) (Json.obj ipf) =
      Except.ok ("Initial Thought: " ++ th.pyStr ++
        "\nInitial Plan: " ++ String.intercalate ". " steps ++
        "\nReflection: " ++
          ((List.lookup "reflection" rflf).getD (Json.str "No improvements suggested")).pyStr ++
        "\nFinal Plan: " ++ String.intercalate ". " steps) := by
    have s1 : (Json.obj ipf).pySubscript "thought" = Except.ok th := by
      simp [Json.pySubscript, h3]
    have s2 : (Json.obj ipf).pySubscript "plan" =
        Except.ok (Json.arr (steps.map Json.str)) := by
      simp [Json.pySubscript, h4]
    have s3 : pyJoin ". " (Json.arr (steps.map Json.str)) =
        Except.ok (String.intercalate ". " steps) := pyJoin_map_str _ _
    simp [Reflection.Agent.render, Json.pyGet, h1, h2,
      Reflection.render_tool_summary, s1, s2, s3]
  have hexec : Reflection.Agent.execute now (Reply.mk pc (some (Json.obj ipf)))
      (Reply.mk rc2 (some (Json.obj rflf))) (Reply.mk xc none) q ints =
      ("Initial Thought: " ++ th.pyStr ++
        "\nInitial Plan: " ++ String.intercalate ". " steps ++
        "\nReflection: " ++
          ((List.lookup "reflection" rflf).getD (Json.str "No improvements suggested")).pyStr ++
        "\nFinal Plan: " ++ String.intercalate ". " steps,
       ints ++ [Reflection.Interaction.mk now q
          (Json.obj [("initial_plan", Json.obj ipf),
                     ("reflection", Json.obj rflf),
                     ("final_plan", Json.obj ipf)])],
       [Reflection.Event.planRequest q,
        Reflection.Event.reflectionRequest
          (Reflection.Interaction.mk now q (Json.obj ipf)),
        Reflection.Event.revisionRequest q (Json.obj ipf) (Json.obj rflf)]) := by
    unfold Reflection.Agent.execute
    simp only [Reflection.Agent.plan]
    have hl : (ints ++ [Reflection.Interaction.mk now q (Json.obj ipf)]).getLast? =
        some (Reflection.Interaction.mk now q (Json.obj ipf)) := List.getLast?_concat _
    simp only [Reflection.Agent.reflect_on_plan, hl]
    have hg : Json.pyGet (Json.obj rflf) "requires_changes" (Json.bool false) =
        Except.ok rcv := by
      simp [Json.pyGet, h5]
    simp only [hg, h6, if_true]
    simp only [Reflection.updateLastPlan, hl, List.dropLast_concat, hrend]
    simp
  refine ⟨?_, ?_⟩
  · rw [hexec]
    simp [List.getLast?_concat]
  · rw [hexec]
    refine strContainsB_data _ _
      ("Initial Thought: " ++ th.pyStr ++ "\nInitial Plan: ").data
      (("\nReflection: " ++
          ((List.lookup "reflection" rflf).getD (Json.str "No improvements suggested")).pyStr ++
        "\nFinal Plan: " ++ String.intercalate ". " steps).data) ?_
    simp [String.data_append, List.append_assoc]

theorem revision_parse_failure_falls_back_witness :
    (((Reflection.Agent.execute 7 (Reply.mk "p" (some (Json.obj
        [("requires_tools", Json.bool true), ("thought", Json.str "t"),
         ("plan", Json.arr [Json.str "step one", Json.str "step two"])])))
        (Reply.mk "r" (some (Json.obj [("requires_changes", Json.bool true)])))
        (Reply.mk "broken" none) "query" []).2.1.getLast?).map
          Reflection.Interaction.plan =
       some (Json.obj [("initial_plan", Json.obj
            [("requires_tools", Json.bool true), ("thought", Json.str "t"),
             ("plan", Json.arr [Json.str "step one", Json.str "step two"])]),
          ("reflection", Json.obj [("requires_changes", Json.bool true)]),
          ("final_plan", Json.obj
            [("requires_tools", Json.bool true), ("thought", Json.str "t"),
             ("plan", Json.arr [Json.str "step one", Json.str "step two"])])])) ∧
    strContainsB (Reflection.Agent.execute 7 (Reply.mk "p" (some (Json.obj
        [("requires_tools", Json.bool true), ("thought", Json.str "t"),
         ("plan", Json.arr [Json.str "step one", Json.str "step two"])])))
        (Reply.mk "r" (some (Json.obj [("requires_changes", Json.bool true)])))
        (Reply.mk "broken" none) "query" []).1
      (String.intercalate ". " ["step one", "step two"]) = true :=
  revision_parse_failure_falls_back 7 "p" "r" "broken" "query" []
    [("requires_tools", Json.bool true), ("thought", Json.str "t"),
     ("plan", Json.arr [Json.str "step one", Json.str "step two"])]
    (Json.bool true) (Json.str "t") ["step one", "step two"]
    [("requires_changes", Json.bool true)] (Json.bool true)
    rfl rfl rfl rfl rfl rfl

/-- C10: a parsed plan dict that lacks the `requires_tools` key entirely is
treated as requiring tools by both executors (the missing boolean defaults
to true): the try-body of the tool-use executor proceeds to the tool branch
instead of returning a direct response, and the rendering step of the
reflection executor selects the tool-requiring summary. -/
theorem missing_requires_tools_defaults_true (tools : ToolUse.Registry)
    (pf : List (String × Json)) (c : String)
    (h : List.lookup "requires_tools" pf = none)
    (ip refl2 : Json) (fpf : List (String × Json))
    (h2 : List.lookup "requires_tools" fpf = none) :
    ToolUse.Agent.execute_body tools (Reply.mk c (some (Json.obj pf))) =
      ToolUse.execute_tools_branch tools (Json.obj pf) ∧
    Reflection.Agent.render ip refl2 (Json.obj fpf) =
      Reflection.render_tool_summary ip refl2 (Json.obj fpf) := by
  constructor
  · simp [ToolUse.Agent.execute_body, ToolUse.Agent.plan, Json.pyGet, h, Json.truthy]
  · simp [Reflection.Agent.render, Json.pyGet, h2, Json.truthy]

theorem missing_requires_tools_defaults_true_witness :
    ToolUse.Agent.execute_body [] (Reply.mk "c" (some (Json.obj []))) =
      ToolUse.execute_tools_branch [] (Json.obj []) ∧
    Reflection.Agent.render Json.null Json.null (Json.obj []) =
      Reflection.render_tool_summary Json.null Json.null (Json.obj []) :=
  missing_requires_tools_defaults_true [] [] "c" rfl Json.null Json.null [] rfl

/-- C1: invoking the registry (`use_tool`) with the name of a registered
tool forwards the argument mapping as keyword arguments to the
implementation of that tool and returns its result verbatim; invoking with any name not
present in the registry fails with the not-found `ValueError` instead of
returning a result. -/
theorem use_tool_dispatch (tools : ToolUse.Registry) (name : String)
    (A : List (String × Json)) :
    (∀ T : ToolUse.Tool, ToolUse.findTool tools (Json.str name) = some T →
       ToolUse.Agent.use_tool tools (Json.str name) A = T.func A) ∧
    (ToolUse.findTool tools (Json.str name) = none →
       ToolUse.Agent.use_tool tools (Json.str name) A =
         Except.error (PyExn.valueError
           (ToolUse.toolNotFoundMsg (Json.str name) tools))) := by
  constructor
  · intro T hT
    simp [ToolUse.Agent.use_tool, hT]
  · intro hN
    simp [ToolUse.Agent.use_tool, hN]

theorem use_tool_dispatch_witness :
    ToolUse.Agent.use_tool ToolUse.demoTools (Json.str "convert_currency")
        ToolUse.demoArgs =
      (ToolUse.convert_currency_tool ToolUse.demoEndpoint).func ToolUse.demoArgs ∧
    ToolUse.Agent.use_tool ToolUse.demoTools (Json.str "missing") [] =
      Except.error (PyExn.valueError
        (ToolUse.toolNotFoundMsg (Json.str "missing") ToolUse.demoTools)) :=
  ⟨(use_tool_dispatch ToolUse.demoTools "convert_currency" ToolUse.demoArgs).1
      (ToolUse.convert_currency_tool ToolUse.demoEndpoint) rfl,
   (use_tool_dispatch ToolUse.demoTools "missing" []).2 rfl⟩

/-- C2: any exception raised inside the tool-use pipeline is caught by the
top-level handler: whenever the try-body raises `e`, `execute` returns the
single string `"Error executing plan: " ++ str(e)` - which begins with
`"Error executing plan:"` - rather than propagating; in particular a model
reply that is not valid JSON (the `ParseError`, which covers the
`ToolNotFound` error too via the first conjunct) produces such a string. -/
theorem execute_catches_all (tools : ToolUse.Registry) (reply : Reply) :
    (∀ e evs, ToolUse.Agent.execute_body tools reply = (Except.error e, evs) →
       (ToolUse.Agent.execute tools reply).1 =
          Json.str ("Error executing plan: " ++ e.str) ∧
       strLeadsWith ("Error executing plan: " ++ e.str)
         "Error executing plan:" = true) ∧
    (reply.parsed = none →
       (ToolUse.Agent.execute tools reply).1 =
         Json.str "Error executing plan: Failed to parse LLM response as JSON") := by
  constructor
  · intro e evs h
    refine ⟨by simp [ToolUse.Agent.execute, h], ?_⟩
    exact strLeadsWith_data _ _ ((" " ++ e.str).data) rfl
  · intro h
    have hb : ToolUse.Agent.execute_body tools reply =
        (Except.error (PyExn.valueError "Failed to parse LLM response as JSON"), []) := by
      simp [ToolUse.Agent.execute_body, ToolUse.Agent.plan, h]
    simp [ToolUse.Agent.execute, hb, PyExn.str]

theorem execute_catches_all_witness :
    (ToolUse.Agent.execute [] (Reply.mk "not json" none)).1 =
      Json.str ("Error executing plan: " ++
        (PyExn.valueError "Failed to parse LLM response as JSON").str) ∧
    strLeadsWith ("Error executing plan: " ++
        (PyExn.valueError "Failed to parse LLM response as JSON").str)
      "Error executing plan:" = true ∧
    (ToolUse.Agent.execute [] (Reply.mk "not json" none)).1 =
      Json.str "Error executing plan: Failed to parse LLM response as JSON" :=
  ⟨((execute_catches_all [] (Reply.mk "not json" none)).1
      (PyExn.valueError "Failed to parse LLM response as JSON") [] rfl).1,
   ((execute_catches_all [] (Reply.mk "not json" none)).1
      (PyExn.valueError "Failed to parse LLM response as JSON") [] rfl).2,
   (execute_catches_all [] (Reply.mk "not json" none)).2 rfl⟩

set_option maxRecDepth 8000 in
/-- C3: for every tool-requiring plan whose listed calls all dispatch
successfully, the tool-use executor invokes each tool call one at a time in
the listed order - its dispatch trace is exactly the call list - collects
each string result, and returns the rendering that joins the step
list and the ". "-separated concatenation of the results; in particular,
for the stubbed query plan of end-to-end scenario 1 (convert 100 USD to
EUR against the stubbed rate table with EUR = 0.9) the result string
contains "100 USD = 90.00 EUR". -/
theorem execute_runs_tools_in_order :
    (∀ (tools : ToolUse.Registry) (c : String) (th : Json) (steps : List String)
       (calls : List (String × List (String × Json))) (results : List String),
       List.Forall₂ (fun cl r =>
         ToolUse.Agent.use_tool tools (Json.str cl.1) cl.2 = Except.ok r) calls results →
       ToolUse.Agent.execute tools
           (Reply.mk c (some (ToolUse.toolPlanJson th steps calls))) =
         (Json.str ("Thought: " ++ th.pyStr ++
            "\nPlan: " ++ String.intercalate ". " steps ++
            "\nResults: " ++ String.intercalate ". " results),
          calls.map (fun cl => ToolUse.ToolEvent.mk (Json.str cl.1) cl.2))) ∧
    (∃ s, (ToolUse.Agent.execute ToolUse.demoTools ToolUse.demoReply).1 = Json.str s ∧
       strContainsB s "100 USD = 90.00 EUR" = true) := by
  constructor
  · intro tools c th steps calls results h
    have hrun := ToolUse.run_tool_calls_map tools calls results h
    have e1 : (ToolUse.toolPlanJson th steps calls).pyGet "requires_tools"
        (Json.bool true) = Except.ok (Json.bool true) := rfl
    have e2 : (ToolUse.toolPlanJson th steps calls).pySubscript "tool_calls"
        = Except.ok (Json.arr (calls.map ToolUse.toolCallJson)) := rfl
    have e3 : (ToolUse.toolPlanJson th steps calls).pySubscript "thought"
        = Except.ok th := rfl
    have e4 : (ToolUse.toolPlanJson th steps calls).pySubscript "plan"
        = Except.ok (Json.arr (steps.map Json.str)) := rfl
    simp [ToolUse.Agent.execute, ToolUse.Agent.execute_body, ToolUse.Agent.plan,
      e1, Json.truthy, ToolUse.execute_tools_branch, e2, Json.pyIter, hrun,
      e3, e4, pyJoin_map_str]
  · exact ⟨"Thought: I need to use the currency conversion tool" ++
      "\nPlan: Use convert_currency tool to convert 100 USD to EUR. Return the conversion result" ++
      "\nResults: 100 USD = 90.00 EUR", by rfl, by rfl⟩

set_option maxRecDepth 8000 in
theorem execute_runs_tools_in_order_witness :
    ToolUse.Agent.execute ToolUse.demoTools ToolUse.demoReply =
      (Json.str ("Thought: " ++ (Json.str "I need to use the currency conversion tool").pyStr ++
         "\nPlan: " ++ String.intercalate ". "
           ["Use convert_currency tool to convert 100 USD to EUR",
            "Return the conversion result"] ++
         "\nResults: " ++ String.intercalate ". " ["100 USD = 90.00 EUR"]),
       [ToolUse.ToolEvent.mk (Json.str "convert_currency") ToolUse.demoArgs]) :=
  (execute_runs_tools_in_order.1 ToolUse.demoTools "stub"
    (Json.str "I need to use the currency conversion tool")
    ["Use convert_currency tool to convert 100 USD to EUR",
     "Return the conversion result"]
    [("convert_currency", ToolUse.demoArgs)] ["100 USD = 90.00 EUR"]
    (List.Forall₂.cons (by rfl) List.Forall₂.nil))

/-- C4: for every input (a numeric amount and string currency codes, per the
declared signature) and every behaviour of the exchange-rate endpoint,
`convert_currency` never propagates an exception: whenever its try-body
raises `e`, the catch-all returns "Error converting currency: " ++ str(e)
as an ordinary result (first conjunct; the second conjunct specialises this
to a raised network/decoding failure), a response without a `rates` field
yields "Error: Could not fetch exchange rates", a missing (or falsy)
destination rate yields "Error: No rate found for ...", and on success the
converted value `amount * rate` is formatted to two decimal places by
`format2`. -/
theorem convert_currency_absorbs_failures (amount : PyNum) (fc tc : String)
    (endpoint : String → ToolUse.FetchOutcome) :
    (∀ e, ToolUse.convert_currency_body (Json.num amount) (Json.str fc)
        (Json.str tc) endpoint = Except.error e →
       ToolUse.convert_currency (Json.num amount) (Json.str fc) (Json.str tc)
         endpoint = "Error converting currency: " ++ e.str) ∧
    (∀ m, endpoint (ToolUse.rateUrl (strUpper fc)) = ToolUse.FetchOutcome.exn m →
       ToolUse.convert_currency (Json.num amount) (Json.str fc) (Json.str tc)
         endpoint = "Error converting currency: " ++ m) ∧
    (∀ data, endpoint (ToolUse.rateUrl (strUpper fc)) = ToolUse.FetchOutcome.json data →
       data.pyContains "rates" = Except.ok false →
       ToolUse.convert_currency (Json.num amount) (Json.str fc) (Json.str tc)
         endpoint = "Error: Could not fetch exchange rates") ∧
    (∀ data rates rate,
       endpoint (ToolUse.rateUrl (strUpper fc)) = ToolUse.FetchOutcome.json data →
       data.pyContains "rates" = Except.ok true →
       data.pySubscript "rates" = Except.ok rates →
       rates.pyGet1 (strUpper tc) = Except.ok rate →
       rate.truthy = false →
       ToolUse.convert_currency (Json.num amount) (Json.str fc) (Json.str tc)
         endpoint = "Error: No rate found for " ++ tc) ∧
    (∀ data rates r,
       endpoint (ToolUse.rateUrl (strUpper fc)) = ToolUse.FetchOutcome.json data →
       data.pyContains "rates" = Except.ok true →
       data.pySubscript "rates" = Except.ok rates →
       rates.pyGet1 (strUpper tc) = Except.ok (Json.num r) →
       r.truthy = true →
       ToolUse.convert_currency (Json.num amount) (Json.str fc) (Json.str tc)
         endpoint = pyNumRepr amount ++ " " ++ strUpper fc ++ " = " ++
           format2 (amount.mul r) ++ " " ++ strUpper tc) := by
  refine ⟨?_, ?_, ?_, ?_, ?_⟩
  · intro e h
    simp [ToolUse.convert_currency, h]
  · intro m h
    simp [ToolUse.convert_currency, ToolUse.convert_currency_body, h, PyExn.str]
  · intro data h hc
    simp [ToolUse.convert_currency, ToolUse.convert_currency_body, h, hc]
  · intro data rates rate h hc hs hg hr
    simp [ToolUse.convert_currency, ToolUse.convert_currency_body, h, hc, hs,
      hg, hr, Json.pyStr]
  · intro data rates r h hc hs hg hr
    simp [ToolUse.convert_currency, ToolUse.convert_currency_body, h, hc, hs,
      hg, Json.truthy, hr, Json.pyStr]

theorem convert_currency_absorbs_failures_witness :
    ToolUse.convert_currency (Json.num (PyNum.mk 100 1)) (Json.str "USD")
        (Json.str "EUR") ToolUse.demoEndpoint =
      pyNumRepr (PyNum.mk 100 1) ++ " " ++ strUpper "USD" ++ " = " ++
        format2 ((PyNum.mk 100 1).mul (PyNum.mk 9 10)) ++ " " ++ strUpper "EUR" ∧
    ToolUse.convert_currency (Json.num (PyNum.mk 100 1)) (Json.str "USD")
        (Json.str "EUR") (fun _ => ToolUse.FetchOutcome.exn "boom") =
      "Error converting currency: " ++ "boom" ∧
    ToolUse.convert_currency (Json.num (PyNum.mk 100 1)) (Json.str "USD")
        (Json.str "GBP") ToolUse.demoEndpoint =
      "Error: No rate found for " ++ "GBP" :=
  ⟨(convert_currency_absorbs_failures (PyNum.mk 100 1) "USD" "EUR"
      ToolUse.demoEndpoint).2.2.2.2
      (Json.obj [("rates", Json.obj [("EUR", Json.num (PyNum.mk 9 10))])])
      (Json.obj [("EUR", Json.num (PyNum.mk 9 10))]) (PyNum.mk 9 10)
      rfl rfl rfl rfl rfl,
   (convert_currency_absorbs_failures (PyNum.mk 100 1) "USD" "EUR"
      (fun _ => ToolUse.FetchOutcome.exn "boom")).2.1 "boom" rfl,
   (convert_currency_absorbs_failures (PyNum.mk 100 1) "USD" "GBP"
      ToolUse.demoEndpoint).2.2.2.1
      (Json.obj [("rates", Json.obj [("EUR", Json.num (PyNum.mk 9 10))])])
      (Json.obj [("EUR", Json.num (PyNum.mk 9 10))]) Json.null
      rfl rfl rfl rfl rfl⟩
